import Mathlib

/-!
Verification of `scripts/crystal_classes.py` (MindatAPIExplorer).

The module is two constant tables and two lookup functions:
`CRYSTAL_CLASS_LOOKUP` (crystal class id → crystal system name),
`get_crystal_class_name` (id, possibly absent, → name string),
`CRYSTAL_SYSTEM_INFO` (name → description and example minerals), and
`get_crystal_system_info` (id → record of name, description, examples).

Python dictionaries are embedded as association lists with `List.lookup`
(`dict.get key default` becomes `(List.lookup key table).getD default`);
the absent value (`None`) is the `none` of `Option Int`; the f-string
`f"Unknown Crystal Class ({class_id})"` is string concatenation with
`toString : Int → String`, which renders the integer in decimal exactly
as Python's `str` does.
-/

namespace CrystalClasses

/-- `CRYSTAL_CLASS_LOOKUP`: crystal class ID to name mapping. -/
def CRYSTAL_CLASS_LOOKUP : List (Int × String) :=
  [(1, "Isometric (Cubic)"),
   (2, "Hexagonal"),
   (3, "Tetragonal"),
   (4, "Orthorhombic"),
   (5, "Monoclinic"),
   (6, "Triclinic"),
   (7, "Trigonal"),
   (8, "Amorphous")]

/-- `get_crystal_class_name`: convert a crystal class ID to a
human-readable crystal system name.  `class_id = none` models Python's
`None`. -/
def get_crystal_class_name (class_id : Option Int) : String :=
  match class_id with
  | none => "Unknown"
  | some id =>
    (CRYSTAL_CLASS_LOOKUP.lookup id).getD
      ("Unknown Crystal Class (" ++ toString id ++ ")")

/-- The value type of `CRYSTAL_SYSTEM_INFO`: each entry of the Python dict
is itself a dict with exactly the keys `"description"` and `"examples"`. -/
structure SystemInfoEntry where
  description : String
  examples : List String
deriving DecidableEq, Repr

/-- `CRYSTAL_SYSTEM_INFO`: additional information about crystal systems. -/
def CRYSTAL_SYSTEM_INFO : List (String × SystemInfoEntry) :=
  [("Isometric (Cubic)",
    { description := "Has three equal axes at right angles. Characterized by high symmetry and includes common minerals like pyrite, halite, and fluorite.",
      examples := ["Pyrite", "Halite", "Fluorite", "Galena", "Diamond"] }),
   ("Hexagonal",
    { description := "Has three equal axes in one plane at 120° angles, and a fourth axis perpendicular to this plane. Includes minerals like beryl and apatite.",
      examples := ["Beryl", "Apatite", "Vanadinite"] }),
   ("Tetragonal",
    { description := "Has three axes at right angles, with two being equal in length. Includes minerals like zircon and rutile.",
      examples := ["Zircon", "Rutile", "Vesuvianite"] }),
   ("Orthorhombic",
    { description := "Has three unequal axes at right angles. Includes minerals like olivine and topaz.",
      examples := ["Olivine", "Topaz", "Baryte", "Aragonite"] }),
   ("Monoclinic",
    { description := "Has three unequal axes with one oblique intersection. Includes minerals like gypsum and orthoclase.",
      examples := ["Gypsum", "Orthoclase", "Hornblende", "Malachite"] }),
   ("Triclinic",
    { description := "Has three unequal axes with oblique intersections. The least symmetrical system, including minerals like plagioclase and kyanite.",
      examples := ["Plagioclase", "Kyanite", "Turquoise", "Microcline"] }),
   ("Trigonal",
    { description := "Previously considered part of the hexagonal system, it has three equal axes at 120° angles. Includes quartz and calcite.",
      examples := ["Quartz", "Calcite", "Corundum", "Tourmaline"] }),
   ("Amorphous",
    { description := "No definite crystalline structure. Includes minerals like opal which lack a regular internal atomic arrangement.",
      examples := ["Opal", "Obsidian", "Limonite"] })]

/-- The record returned by `get_crystal_system_info`: a dict with keys
`"name"`, `"description"`, `"examples"`. -/
structure CrystalSystemInfo where
  name : String
  description : String
  examples : List String
deriving DecidableEq, Repr

/-- The default info record substituted when the resolved name is not a
key of `CRYSTAL_SYSTEM_INFO` (the second argument of `.get` in the
Python source). -/
def DEFAULT_INFO : SystemInfoEntry :=
  { description := "No additional information available for this crystal system.",
    examples := [] }

/-- `get_crystal_system_info`: get detailed information about a crystal
system. -/
def get_crystal_system_info (class_id : Option Int) : CrystalSystemInfo :=
  let name := get_crystal_class_name class_id
  let info := (CRYSTAL_SYSTEM_INFO.lookup name).getD DEFAULT_INFO
  { name := name
    description := info.description
    examples := info.examples }

end CrystalClasses

namespace CrystalClasses

/-- An identifier outside {1,...,8} is not a key of the Class Table. -/
lemma class_lookup_eq_none {id : Int} (h : id < 1 ∨ 8 < id) :
    CRYSTAL_CLASS_LOOKUP.lookup id = none := by
  have h1 : (id == (1 : Int)) = false := by simp; omega
  have h2 : (id == (2 : Int)) = false := by simp; omega
  have h3 : (id == (3 : Int)) = false := by simp; omega
  have h4 : (id == (4 : Int)) = false := by simp; omega
  have h5 : (id == (5 : Int)) = false := by simp; omega
  have h6 : (id == (6 : Int)) = false := by simp; omega
  have h7 : (id == (7 : Int)) = false := by simp; omega
  have h8 : (id == (8 : Int)) = false := by simp; omega
  simp [CRYSTAL_CLASS_LOOKUP, List.lookup, h1, h2, h3, h4, h5, h6, h7, h8]

/-- On an identifier outside {1,...,8} the name falls back to the
formatted string. -/
lemma name_out_of_range {id : Int} (h : id < 1 ∨ 8 < id) :
    get_crystal_class_name (some id) =
      "Unknown Crystal Class (" ++ toString id ++ ")" := by
  simp [get_crystal_class_name, class_lookup_eq_none h]

/-- No string of the shape `"Unknown Crystal Class (…)"` is a key of the
Info Table: every key has length at most 17 while the shape has length
at least 24. -/
lemma info_lookup_unknown_str (s : String) :
    CRYSTAL_SYSTEM_INFO.lookup ("Unknown Crystal Class (" ++ s ++ ")") = none := by
  have key : ∀ t : String, t.length < 24 →
      (("Unknown Crystal Class (" ++ s ++ ")") == t) = false := by
    intro t ht
    rw [beq_eq_false_iff_ne]
    intro he
    have hlen := congrArg String.length he
    rw [String.length_append, String.length_append] at hlen
    have e1 : ("Unknown Crystal Class (" : String).length = 23 := rfl
    have e2 : (")" : String).length = 1 := rfl
    rw [e1, e2] at hlen
    omega
  simp only [CRYSTAL_SYSTEM_INFO, List.lookup,
    key "Isometric (Cubic)" (by decide), key "Hexagonal" (by decide),
    key "Tetragonal" (by decide), key "Orthorhombic" (by decide),
    key "Monoclinic" (by decide), key "Triclinic" (by decide),
    key "Trigonal" (by decide), key "Amorphous" (by decide)]

/-!
Injectivity of the decimal rendering used by the f-string fallback.
`toString : Int → String` is `Nat.repr` on non-negative inputs and
`"-" ++ Nat.repr` on negative ones; `Nat.repr` is `Nat.toDigits 10`,
which we relate to `Nat.digits`.
-/

lemma toDigitsCore_append (b : Nat) :
    ∀ (fuel n : Nat) (acc : List Char),
      Nat.toDigitsCore b fuel n acc = Nat.toDigitsCore b fuel n [] ++ acc := by
  intro fuel
  induction fuel with
  | zero => intro n acc; simp [Nat.toDigitsCore]
  | succ f ih =>
    intro n acc
    simp only [Nat.toDigitsCore]
    by_cases h : n / b = 0
    · simp [h]
    · simp only [if_neg h]
      rw [ih (n / b) (Nat.digitChar (n % b) :: acc), ih (n / b) [Nat.digitChar (n % b)]]
      simp

lemma toDigitsCore_eq_digits (b : Nat) (hb : 2 ≤ b) :
    ∀ (fuel n : Nat), n ≠ 0 → n < b ^ fuel →
      Nat.toDigitsCore b fuel n [] = ((Nat.digits b n).map Nat.digitChar).reverse := by
  intro fuel
  induction fuel with
  | zero => intro n hn hlt; simp at hlt; omega
  | succ f ih =>
    intro n hn hlt
    have hb1 : 1 < b := hb
    have hdig : Nat.digits b n = n % b :: Nat.digits b (n / b) :=
      Nat.digits_def' hb1 (Nat.pos_of_ne_zero hn)
    simp only [Nat.toDigitsCore]
    by_cases h : n / b = 0
    · rw [if_pos h, hdig, h]
      simp
    · rw [if_neg h]
      rw [toDigitsCore_append b f (n / b) [Nat.digitChar (n % b)]]
      have hlt' : n / b < b ^ f := by
        rw [Nat.div_lt_iff_lt_mul (by omega : 0 < b)]
        calc n < b ^ (f + 1) := hlt
        _ = b ^ f * b := by ring
      rw [ih (n / b) h hlt', hdig]
      simp

lemma toDigits_eq_digits (b n : Nat) (hb : 2 ≤ b) (hn : n ≠ 0) :
    Nat.toDigits b n = ((Nat.digits b n).map Nat.digitChar).reverse := by
  apply toDigitsCore_eq_digits b hb (n + 1) n hn
  calc n < 2 ^ n := Nat.lt_two_pow n
  _ ≤ 2 ^ (n + 1) := Nat.pow_le_pow_right (by omega) (by omega)
  _ ≤ b ^ (n + 1) := Nat.pow_le_pow_left hb (n + 1)

lemma digitChar_inj_lt10 : ∀ x < 10, ∀ y < 10,
    Nat.digitChar x = Nat.digitChar y → x = y := by decide

lemma map_digitChar_inj : ∀ xs ys : List Nat,
    (∀ x ∈ xs, x < 10) → (∀ y ∈ ys, y < 10) →
    xs.map Nat.digitChar = ys.map Nat.digitChar → xs = ys := by
  intro xs
  induction xs with
  | nil => intro ys _ _ h; cases ys <;> simp_all
  | cons x xs ih =>
    intro ys hx hy h
    cases ys with
    | nil => simp at h
    | cons y ys =>
      simp only [List.map_cons, List.cons.injEq] at h
      have hxy : x = y := digitChar_inj_lt10 x (hx x (by simp)) y (hy y (by simp)) h.1
      have := ih ys (fun a ha => hx a (by simp [ha])) (fun a ha => hy a (by simp [ha])) h.2
      simp [hxy, this]

lemma repr_data (n : Nat) : (Nat.repr n).data = Nat.toDigits 10 n := rfl

lemma nat_repr_inj : ∀ m n : Nat, Nat.repr m = Nat.repr n → m = n := by
  have zero_case : ∀ n : Nat, n ≠ 0 → Nat.toDigits 10 n ≠ ['0'] := by
    intro n hn h
    rw [toDigits_eq_digits 10 n (by omega) hn] at h
    have h' : (Nat.digits 10 n).map Nat.digitChar = ['0'] := by
      have := congrArg List.reverse h
      simpa using this
    have hd : Nat.digits 10 n = [0] := by
      cases hdig : Nat.digits 10 n with
      | nil => simp [hdig] at h'
      | cons d ds =>
        rw [hdig] at h'
        cases ds with
        | nil =>
          simp only [List.map_cons, List.map_nil, List.cons.injEq] at h'
          have hd10 : d < 10 :=
            Nat.digits_lt_base (by omega) (by rw [hdig]; exact List.mem_cons_self d [])
          have : d = 0 := digitChar_inj_lt10 d hd10 0 (by omega) (h'.1.trans (by decide))
          simp [this]
        | cons e es => simp at h'
    have := Nat.ofDigits_digits 10 n
    rw [hd] at this
    simp [Nat.ofDigits] at this
    omega
  intro m n h
  have hdata : Nat.toDigits 10 m = Nat.toDigits 10 n := by
    have := congrArg String.data h
    rw [repr_data, repr_data] at this
    exact this
  by_cases hm : m = 0 <;> by_cases hn : n = 0
  · omega
  · exfalso; subst hm; exact zero_case n hn (by rw [← hdata]; decide)
  · exfalso; subst hn; exact zero_case m hm (by rw [hdata]; decide)
  · rw [toDigits_eq_digits 10 m (by omega) hm, toDigits_eq_digits 10 n (by omega) hn] at hdata
    have hmap : (Nat.digits 10 m).map Nat.digitChar = (Nat.digits 10 n).map Nat.digitChar := by
      have := congrArg List.reverse hdata
      simpa using this
    have hdig : Nat.digits 10 m = Nat.digits 10 n :=
      map_digitChar_inj _ _ (fun x hx => Nat.digits_lt_base (by omega) hx)
        (fun y hy => Nat.digits_lt_base (by omega) hy) hmap
    have h1 := Nat.ofDigits_digits 10 m
    have h2 := Nat.ofDigits_digits 10 n
    rw [hdig] at h1
    omega

lemma int_toString_ofNat (m : Nat) : toString (Int.ofNat m) = Nat.repr m := rfl

lemma int_toString_negSucc (m : Nat) :
    toString (Int.negSucc m) = "-" ++ Nat.repr (m + 1) := rfl

lemma dash_not_mem_toDigits (m : Nat) : '-' ∉ Nat.toDigits 10 m := by
  by_cases hm : m = 0
  · subst hm; decide
  · rw [toDigits_eq_digits 10 m (by omega) hm]
    intro hmem
    rw [List.mem_reverse, List.mem_map] at hmem
    obtain ⟨d, hd, hchar⟩ := hmem
    have hd10 : d < 10 := Nat.digits_lt_base (by omega) hd
    have : ∀ x < 10, Nat.digitChar x ≠ '-' := by decide
    exact this d hd10 hchar

lemma int_toString_inj : ∀ a b : Int, toString a = toString b → a = b := by
  intro a b h
  cases a with
  | ofNat m =>
    cases b with
    | ofNat n =>
      rw [int_toString_ofNat, int_toString_ofNat] at h
      rw [nat_repr_inj m n h]
    | negSucc n =>
      exfalso
      rw [int_toString_ofNat, int_toString_negSucc] at h
      have hd := congrArg String.data h
      rw [repr_data, String.data_append, repr_data] at hd
      exact dash_not_mem_toDigits m (by rw [hd]; exact List.mem_cons_self '-' _)
  | negSucc m =>
    cases b with
    | ofNat n =>
      exfalso
      rw [int_toString_negSucc, int_toString_ofNat] at h
      have hd := congrArg String.data h
      rw [repr_data, String.data_append, repr_data] at hd
      exact dash_not_mem_toDigits n (by rw [← hd]; exact List.mem_cons_self '-' _)
    | negSucc n =>
      rw [int_toString_negSucc, int_toString_negSucc] at h
      have hd := congrArg String.data h
      rw [String.data_append, String.data_append] at hd
      have hrepr : (Nat.repr (m + 1)).data = (Nat.repr (n + 1)).data :=
        List.append_cancel_left hd
      have hmn := nat_repr_inj (m + 1) (n + 1) (by ext1; exact hrepr)
      have : m = n := by omega
      rw [this]

/-- The length of an `"Unknown Crystal Class (…)"` string. -/
lemma unknown_str_length (s : String) :
    ("Unknown Crystal Class (" ++ s ++ ")").length = 24 + s.length := by
  rw [String.length_append, String.length_append]
  have e1 : ("Unknown Crystal Class (" : String).length = 23 := rfl
  have e2 : (")" : String).length = 1 := rfl
  rw [e1, e2]
  omega

/-- In-table names are short (at most 17 characters). -/
lemma name_length_le_17 {id : Int} (h1 : 1 ≤ id) (h2 : id ≤ 8) :
    (get_crystal_class_name (some id)).length ≤ 17 := by
  interval_cases id <;> decide

/-- Out-of-table names are long (at least 24 characters). -/
lemma name_length_ge_24 {id : Int} (h : id < 1 ∨ 8 < id) :
    24 ≤ (get_crystal_class_name (some id)).length := by
  rw [name_out_of_range h, unknown_str_length]
  omega

/-- C1: for every identifier in {1,...,8}, `get_crystal_class_name`
returns exactly the fixed name of the Class Table. -/
theorem c1_class_names :
    get_crystal_class_name (some 1) = "Isometric (Cubic)" ∧
    get_crystal_class_name (some 2) = "Hexagonal" ∧
    get_crystal_class_name (some 3) = "Tetragonal" ∧
    get_crystal_class_name (some 4) = "Orthorhombic" ∧
    get_crystal_class_name (some 5) = "Monoclinic" ∧
    get_crystal_class_name (some 6) = "Triclinic" ∧
    get_crystal_class_name (some 7) = "Trigonal" ∧
    get_crystal_class_name (some 8) = "Amorphous" := by
  decide

/-- C3: on the absent identifier (`None`), `get_crystal_class_name`
returns the literal string `"Unknown"`. -/
theorem c3_none_unknown : get_crystal_class_name none = "Unknown" := rfl

/-- C5: for every input, the `name` field of the record returned by
`get_crystal_system_info` equals `get_crystal_class_name` on the same
input. -/
theorem c5_name_field (class_id : Option Int) :
    (get_crystal_system_info class_id).name = get_crystal_class_name class_id := rfl

/-- C2: on every present identifier outside {1,...,8},
`get_crystal_class_name` returns `"Unknown Crystal Class (<id>)"` with
the identifier rendered in decimal. -/
theorem c2_unknown_class (id : Int) (h : id < 1 ∨ 8 < id) :
    get_crystal_class_name (some id) =
      "Unknown Crystal Class (" ++ toString id ++ ")" :=
  name_out_of_range h

/-- C2 witness: the claim's own instance, `resolve_name(99)`. -/
theorem c2_unknown_class_witness :
    ((99 : Int) < 1 ∨ 8 < (99 : Int)) ∧
      get_crystal_class_name (some 99) = "Unknown Crystal Class (99)" := by
  refine ⟨Or.inr (by decide), ?_⟩
  rw [c2_unknown_class 99 (Or.inr (by decide))]
  decide

/-- C4: whenever the resolved name is not a key of the Info Table —
every present identifier outside {1,...,8}, and the absent identifier —
`get_crystal_system_info` returns the default record; in particular at
`None` and at `99`. -/
theorem c4_default_info :
    (∀ id : Int, id < 1 ∨ 8 < id →
      get_crystal_system_info (some id) =
        { name := get_crystal_class_name (some id)
          description := "No additional information available for this crystal system."
          examples := [] }) ∧
    get_crystal_system_info none =
      { name := "Unknown"
        description := "No additional information available for this crystal system."
        examples := [] } ∧
    get_crystal_system_info (some 99) =
      { name := "Unknown Crystal Class (99)"
        description := "No additional information available for this crystal system."
        examples := [] } := by
  refine ⟨fun id h => ?_, by decide, by decide⟩
  simp [get_crystal_system_info, name_out_of_range h, info_lookup_unknown_str,
    DEFAULT_INFO]

/-- C4 witness: the general part at the concrete identifier 0. -/
theorem c4_default_info_witness :
    ((0 : Int) < 1 ∨ 8 < (0 : Int)) ∧
      get_crystal_system_info (some 0) =
        { name := get_crystal_class_name (some 0)
          description := "No additional information available for this crystal system."
          examples := [] } :=
  ⟨Or.inl (by decide), c4_default_info.1 0 (Or.inl (by decide))⟩

/-- C6: for every identifier in {1,...,8}, the returned description is a
non-empty string and the returned examples are exactly the fixed,
non-empty list of the Info Table for that crystal system. -/
theorem c6_known_info :
    ((get_crystal_system_info (some 1)).description ≠ "" ∧
      (get_crystal_system_info (some 1)).examples =
        ["Pyrite", "Halite", "Fluorite", "Galena", "Diamond"]) ∧
    ((get_crystal_system_info (some 2)).description ≠ "" ∧
      (get_crystal_system_info (some 2)).examples =
        ["Beryl", "Apatite", "Vanadinite"]) ∧
    ((get_crystal_system_info (some 3)).description ≠ "" ∧
      (get_crystal_system_info (some 3)).examples =
        ["Zircon", "Rutile", "Vesuvianite"]) ∧
    ((get_crystal_system_info (some 4)).description ≠ "" ∧
      (get_crystal_system_info (some 4)).examples =
        ["Olivine", "Topaz", "Baryte", "Aragonite"]) ∧
    ((get_crystal_system_info (some 5)).description ≠ "" ∧
      (get_crystal_system_info (some 5)).examples =
        ["Gypsum", "Orthoclase", "Hornblende", "Malachite"]) ∧
    ((get_crystal_system_info (some 6)).description ≠ "" ∧
      (get_crystal_system_info (some 6)).examples =
        ["Plagioclase", "Kyanite", "Turquoise", "Microcline"]) ∧
    ((get_crystal_system_info (some 7)).description ≠ "" ∧
      (get_crystal_system_info (some 7)).examples =
        ["Quartz", "Calcite", "Corundum", "Tourmaline"]) ∧
    ((get_crystal_system_info (some 8)).description ≠ "" ∧
      (get_crystal_system_info (some 8)).examples =
        ["Opal", "Obsidian", "Limonite"]) := by
  decide

/-- C7: both functions are total — every input, present or absent,
yields a result string resp. record. -/
theorem c7_total (class_id : Option Int) :
    (∃ s : String, get_crystal_class_name class_id = s) ∧
    ∃ r : CrystalSystemInfo, get_crystal_system_info class_id = r :=
  ⟨⟨_, rfl⟩, _, rfl⟩

/-- C8: both functions are deterministic pure functions of their input:
two calls on equal inputs yield identical outputs. -/
theorem c8_deterministic (a b : Option Int) (h : a = b) :
    get_crystal_class_name a = get_crystal_class_name b ∧
    get_crystal_system_info a = get_crystal_system_info b := by
  rw [h]; exact ⟨rfl, rfl⟩

/-- C8 witness: two calls at the concrete input 3. -/
theorem c8_deterministic_witness :
    (some 3 : Option Int) = some 3 ∧
      (get_crystal_class_name (some 3) = get_crystal_class_name (some 3) ∧
        get_crystal_system_info (some 3) = get_crystal_system_info (some 3)) :=
  ⟨rfl, c8_deterministic (some 3) (some 3) rfl⟩

/-- C9: the values of the Class Table are exactly the keys of the Info
Table; the Info-Table lookup succeeds on the name of every Class-Table
identifier (the default branch is unreachable there); and the Info-Table
keys are exactly the names resolved from the Class-Table identifiers, so
every Info-Table entry is reachable. -/
theorem c9_tables_aligned :
    CRYSTAL_CLASS_LOOKUP.map Prod.snd = CRYSTAL_SYSTEM_INFO.map Prod.fst ∧
    (CRYSTAL_CLASS_LOOKUP.all fun p =>
      (CRYSTAL_SYSTEM_INFO.lookup (get_crystal_class_name (some p.1))).isSome) = true ∧
    CRYSTAL_SYSTEM_INFO.map Prod.fst =
      CRYSTAL_CLASS_LOOKUP.map fun p => get_crystal_class_name (some p.1) := by
  decide

/-- C10: `get_crystal_class_name` is injective over optional integers —
distinct inputs (absent or any integers) always produce distinct name
strings. -/
theorem c10_name_injective (a b : Option Int)
    (h : get_crystal_class_name a = get_crystal_class_name b) : a = b := by
  have none_ne_some : ∀ id : Int,
      get_crystal_class_name none = get_crystal_class_name (some id) → False := by
    intro id he
    by_cases hr : 1 ≤ id ∧ id ≤ 8
    · obtain ⟨hr1, hr2⟩ := hr
      revert he
      interval_cases id <;> decide
    · have h24 := name_length_ge_24 (by omega : id < 1 ∨ 8 < id)
      have hlen := congrArg String.length he
      have e7 : (get_crystal_class_name none).length = 7 := rfl
      omega
  cases a with
  | none =>
    cases b with
    | none => rfl
    | some id2 => exact absurd h (fun he => none_ne_some id2 he)
  | some id1 =>
    cases b with
    | none => exact absurd h.symm (fun he => none_ne_some id1 he)
    | some id2 =>
      by_cases hr1 : 1 ≤ id1 ∧ id1 ≤ 8 <;> by_cases hr2 : 1 ≤ id2 ∧ id2 ≤ 8
      · obtain ⟨ha1, ha2⟩ := hr1
        obtain ⟨hb1, hb2⟩ := hr2
        revert h
        interval_cases id1 <;> interval_cases id2 <;> decide
      · exfalso
        have l17 := name_length_le_17 hr1.1 hr1.2
        have l24 := name_length_ge_24 (by omega : id2 < 1 ∨ 8 < id2)
        have hlen := congrArg String.length h
        omega
      · exfalso
        have l17 := name_length_le_17 hr2.1 hr2.2
        have l24 := name_length_ge_24 (by omega : id1 < 1 ∨ 8 < id1)
        have hlen := congrArg String.length h
        omega
      · rw [name_out_of_range (by omega : id1 < 1 ∨ 8 < id1),
          name_out_of_range (by omega : id2 < 1 ∨ 8 < id2)] at h
        have hd := congrArg String.data h
        rw [String.data_append, String.data_append, String.data_append,
          String.data_append] at hd
        have hmid : ("Unknown Crystal Class (" : String).data ++ (toString id1).data =
            ("Unknown Crystal Class (" : String).data ++ (toString id2).data :=
          List.append_cancel_right hd
        have hstr : toString id1 = toString id2 := by
          ext1
          exact List.append_cancel_left hmid
        rw [int_toString_inj id1 id2 hstr]

/-- C10 witness: the theorem at the concrete pair of equal inputs `2`. -/
theorem c10_name_injective_witness :
    get_crystal_class_name (some 2) = get_crystal_class_name (some 2) ∧
      (some 2 : Option Int) = some 2 :=
  ⟨rfl, c10_name_injective (some 2) (some 2) rfl⟩

end CrystalClasses
